import Mathlib

/-!
Verification of the go-common RabbitMQ client (package `rabbitmq`):
a shallow embedding of the connection lifecycle manager (client.go,
`NewClient` / `Close` / `handleReconnection` / `connect`), the consumer
pipeline (consumer.go, `StartConsumer` / `consumeLoop` / `processMessage`,
built on `retry-go/v5`), and the guarded publisher (producer.go,
`Publish`), together with theorems about the defaulting, retry, backoff,
disposition, readiness and shutdown behaviour.

Go durations (`time.Duration`) are embedded as nanosecond counts in `Nat`.
Handlers are embedded as functions from the attempt index to a success
flag, and context cancellation as the index of the first backoff wait at
which the cancelled context is observed. External effects (dialling,
channel opening, JSON marshalling, the channel publish, ack/reject calls)
are embedded as oracle parameters plus recorded event traces, so that
the control flow of the Go functions is reproduced exactly while the
network itself stays abstract.
-/

namespace GoCommonRabbit

/-- Nanoseconds, the unit of Go's time.Duration. -/
abbrev Duration := Nat

/-- One second, as time.Second in nanoseconds. -/
def second : Duration := 1000000000

/-- Config from config.go: connection settings of the client. -/
structure Config where
  url : String
  appName : String
  reconnectDelay : Duration
  maxRetries : Nat
  deriving Repr, DecidableEq

/-- Consumer from config.go: settings of one consuming invocation. -/
structure Consumer where
  name : String
  queue : String
  prefetchCount : Nat
  workers : Nat
  retryMax : Nat
  retryStart : Duration
  deriving Repr, DecidableEq

/-- The mutex-guarded fields of Client (client.go): the readiness and
closed flags, and the generation of each handle. The Go struct stores the
raw connection, channel, and the two close-notification channels; the
embedding numbers each installed handle by the generation of the connect
call that installed it, so that "replaced together" is expressible:
fields carrying the same generation were installed by the same
lock-protected update. -/
structure ClientState where
  isReady : Bool
  closed : Bool
  connGen : Nat
  chGen : Nat
  notifyConnGen : Nat
  notifyChanGen : Nat
  deriving Repr, DecidableEq

/-- The configuration defaulting NewClient performs before any
connection attempt (client.go): a zero ReconnectDelay becomes one
second. -/
def NewClientDefaults (cfg : Config) : Config :=
  { cfg with reconnectDelay := if cfg.reconnectDelay = 0 then second else cfg.reconnectDelay }

/-- The configuration defaulting StartConsumer performs on entry
(consumer.go lines 16-24): zero RetryMax becomes 3, zero RetryStart
becomes one second, zero Workers becomes 1. The three Go `if` statements
touch disjoint fields, so they are one simultaneous update. -/
def StartConsumerDefaults (c : Consumer) : Consumer :=
  { c with
    retryMax := if c.retryMax = 0 then 3 else c.retryMax,
    retryStart := if c.retryStart = 0 then second else c.retryStart,
    workers := if c.workers = 0 then 1 else c.workers }

/-- BackOffDelay of retry-go as configured by processMessage
(Delay = RetryStart, DelayType = BackOffDelay, MaxDelay unset): the
n-th wait lasts delay shifted left by n, i.e. delay times 2 to the n.
The library's overflow guard on the shift is not reached for any
duration a wait could complete. -/
def backOffDelay (delay : Duration) (n : Nat) : Duration := delay * 2 ^ n

/-- Whether the cancelled context is observed at backoff wait number n:
cancelAt is the index of the first wait during which ctx.Done fires
(none when the context is never cancelled). -/
def ctxDone : Option Nat → Nat → Bool
  | none, _ => false
  | some k, n => decide (k ≤ n)

/-- The outcome of one retry.Do run: how many times the handler was
invoked, the backoff waits completed between invocations, and whether
the run ended in success (err == nil in processMessage). -/
structure RetryResult where
  attempts : Nat
  delays : List Duration
  ok : Bool
  deriving Repr, DecidableEq

/-- Do of retry-go/v5 as configured by processMessage: fuel is the
configured Attempts (RetryMax+1 there, always positive), n the current
attempt index. The handler runs; on success the run ends successfully;
on failure with no attempt left the run fails; otherwise, if the
context is observed cancelled the run stops early with an error, else
the backoff wait for index n completes and the next attempt runs. -/
def retryDo (handler : Nat → Bool) (cancelAt : Option Nat) (delay : Duration) :
    Nat → Nat → RetryResult
  | 0, _ => ⟨0, [], false⟩
  | 1, n => ⟨1, [], handler n⟩
  | fuel + 2, n =>
    if handler n then ⟨1, [], true⟩
    else if ctxDone cancelAt n then ⟨1, [], false⟩
    else
      let r := retryDo handler cancelAt delay (fuel + 1) (n + 1)
      ⟨r.attempts + 1, backOffDelay delay n :: r.delays, r.ok⟩

/-- A terminal disposition call issued on a delivery: msg.Ack(false) or
msg.Reject(requeue). -/
inductive Disposition
  | ack
  | reject (requeue : Bool)
  deriving Repr, DecidableEq

/-- processMessage (consumer.go lines 91-117): run the configured retry
of the handler; on success issue exactly one Ack, otherwise exactly one
Reject with requeue = false. Returns the retry outcome and the list of
disposition calls issued for the delivery. -/
def processMessage (config : Consumer) (handler : Nat → Bool) (cancelAt : Option Nat) :
    RetryResult × List Disposition :=
  let r := retryDo handler cancelAt config.retryStart (config.retryMax + 1) 0
  if r.ok then (r, [Disposition.ack]) else (r, [Disposition.reject false])

/-- The per-delivery behaviour of StartConsumer (consumer.go lines
15-24 then 91-117): the defaulting applied on entry, followed by the
processing a worker performs on one delivery. -/
def StartConsumerProcess (config : Consumer) (handler : Nat → Bool) (cancelAt : Option Nat) :
    RetryResult × List Disposition :=
  processMessage (StartConsumerDefaults config) handler cancelAt

/-- consumeLoop (consumer.go lines 69-89) restricted to its per-delivery
effect: every delivery a worker receives from the stream is handed to
processMessage; the disposition calls of each delivery are those of its
own processMessage run. Each delivery is given by its handler-outcome
function. -/
def consumeLoop (config : Consumer) (deliveries : List (Nat → Bool)) (cancelAt : Option Nat) :
    List (List Disposition) :=
  deliveries.map fun h => (processMessage config h cancelAt).2

/-- The result of one Publish call (producer.go): the published case,
the two sentinel errors of errors.go, the marshal failure and the error
a channel publish reports. shuttingDown stands for ErrShutdown, which
errors.go declares. -/
inductive PubResult
  | published
  | notConnected
  | shuttingDown
  | marshalError
  | channelError
  deriving Repr, DecidableEq

/-- Whether a publish result is the ErrShutdown sentinel. -/
def isShutdownResult : PubResult → Bool
  | PubResult.shuttingDown => true
  | _ => false

/-- The externally visible actions a Publish call performs, in order:
serialising the payload (json.Marshal) and the network publish on the
channel (PublishWithContext). -/
inductive PubEvent
  | marshal
  | networkPublish
  deriving Repr, DecidableEq

/-- Publish (producer.go lines 12-38): under the read lock, if isReady
is false return ErrNotConnected at once; otherwise marshal the payload
(marshalOk tells whether the payload is JSON-encodable), failing with
the marshal error; otherwise perform the network publish, whose outcome
publishOk the channel reports. The event list records the actions
performed, in order. -/
def Publish (st : ClientState) (marshalOk : Bool) (publishOk : Bool) :
    PubResult × List PubEvent :=
  if !st.isReady then (PubResult.notConnected, [])
  else if !marshalOk then (PubResult.marshalError, [PubEvent.marshal])
  else if publishOk then (PubResult.published, [PubEvent.marshal, PubEvent.networkPublish])
  else (PubResult.channelError, [PubEvent.marshal, PubEvent.networkPublish])

/-- The externally visible actions of connect and Close (client.go), in
order: the dial, the channel opening, closing the freshly dialed
connection after a channel failure, the single lock-protected state
swap installing generation g, and the channel/connection closes Close
performs. -/
inductive ConnEvent
  | dialAttempt (ok : Bool)
  | openChannel (ok : Bool)
  | closeNewConn
  | stateSwap (g : Nat)
  | closeChannel
  | closeConnection
  deriving Repr, DecidableEq

/-- connect (client.go lines 115-137): dial; on failure return the error
with the state untouched. Open a channel on the new connection; on
failure close the new connection, then return the error with the state
untouched. On success, one lock-protected update installs the new
connection, the new channel and two fresh close-notification channels
— all four carrying the same fresh generation — and sets isReady to
true. Returns the state, whether connect succeeded, and the events in
order. -/
def connect (st : ClientState) (dialOk chanOk : Bool) :
    ClientState × Bool × List ConnEvent :=
  if !dialOk then (st, false, [ConnEvent.dialAttempt false])
  else if !chanOk then
    (st, false, [ConnEvent.dialAttempt true, ConnEvent.openChannel false, ConnEvent.closeNewConn])
  else
    let g := st.connGen + 1
    ({ isReady := true, closed := st.closed, connGen := g, chGen := g,
       notifyConnGen := g, notifyChanGen := g },
     true,
     [ConnEvent.dialAttempt true, ConnEvent.openChannel true, ConnEvent.stateSwap g])

/-- Close (client.go lines 53-65): under the lock, set closed to true
and close the channel and the connection. Close does not touch isReady
or the stored handles and generations. -/
def Close (st : ClientState) : ClientState × List ConnEvent :=
  ({ st with closed := true }, [ConnEvent.closeChannel, ConnEvent.closeConnection])

/-- setReady (client.go lines 139-143): set isReady under the lock. -/
def setReady (st : ClientState) (ready : Bool) : ClientState :=
  { st with isReady := ready }

/-- Every state-mutating operation the rabbitmq package performs on the
shared Client fields: Close, a connect attempt with any dial/channel
outcome, and setReady. Publish and StartConsumer only read the state. -/
inductive ClientStep : ClientState → ClientState → Prop
  | close (st : ClientState) : ClientStep st (Close st).1
  | conn (st : ClientState) (dialOk chanOk : Bool) : ClientStep st (connect st dialOk chanOk).1
  | ready (st : ClientState) (b : Bool) : ClientStep st (setReady st b)

/-- The observable steps of the reconnection actor: a read of the closed
flag (with the value read), the blocking wait for a close notification,
the setReady(false) marking, a connect attempt (with its outcome), and
the ReconnectDelay sleep after a failed attempt. -/
inductive ActorEvent
  | checkClosed (b : Bool)
  | waitNotify
  | markUnready
  | connectAttempt (ok : Bool)
  | sleepDelay
  deriving Repr, DecidableEq

/-- The two loop positions of handleReconnection: the outer loop (waiting
for a close notification while connected) and the inner reconnect
loop. -/
inductive ActorMode
  | outer
  | inner
  deriving Repr, DecidableEq

/-- handleReconnection (client.go lines 69-113) as a trace generator:
closedAt t is the value the t-th read of the closed flag returns, and
connOk t whether the connect attempt made at loop step t succeeds; fuel
bounds the number of loop iterations unrolled (the Go loop is
unbounded). Each loop body first reads closed and returns if it is
true; the outer body then blocks for a close notification and marks the
client unready before entering the inner loop; the inner body attempts
connect, sleeping and repeating on failure, and returns to the outer
loop on success. -/
def handleReconnection (closedAt : Nat → Bool) (connOk : Nat → Bool) :
    Nat → ActorMode → Nat → List ActorEvent
  | 0, _, _ => []
  | fuel + 1, ActorMode.outer, t =>
    if closedAt t then [ActorEvent.checkClosed true]
    else
      ActorEvent.checkClosed false :: ActorEvent.waitNotify :: ActorEvent.markUnready ::
        handleReconnection closedAt connOk fuel ActorMode.inner (t + 1)
  | fuel + 1, ActorMode.inner, t =>
    if closedAt t then [ActorEvent.checkClosed true]
    else if connOk t then
      ActorEvent.checkClosed false :: ActorEvent.connectAttempt true ::
        handleReconnection closedAt connOk fuel ActorMode.outer (t + 1)
    else
      ActorEvent.checkClosed false :: ActorEvent.connectAttempt false :: ActorEvent.sleepDelay ::
        handleReconnection closedAt connOk fuel ActorMode.inner (t + 1)

/-- The "jobs" scenario configuration of the spec: queue "jobs", two
workers, RetryMax 0, all other fields zero. -/
def jobsConfig : Consumer :=
  { name := "", queue := "jobs", prefetchCount := 0, workers := 2,
    retryMax := 0, retryStart := 0 }

/-- A handler that fails on every invocation. -/
def alwaysFailHandler : Nat → Bool := fun _ => false

/-- A client state that is connected and ready, one generation installed. -/
def readyState : ClientState :=
  { isReady := true, closed := false, connGen := 1, chGen := 1,
    notifyConnGen := 1, notifyChanGen := 1 }

/-- A client state that is not ready (mid-reconnect). -/
def notReadyState : ClientState :=
  { isReady := false, closed := false, connGen := 1, chGen := 1,
    notifyConnGen := 1, notifyChanGen := 1 }

/-- An all-zero client configuration. -/
def zeroConfig : Config :=
  { url := "amqp://localhost:5672", appName := "", reconnectDelay := 0, maxRetries := 0 }

/-- An all-zero consumer configuration on queue "jobs". -/
def zeroConsumer : Consumer :=
  { name := "", queue := "jobs", prefetchCount := 0, workers := 0,
    retryMax := 0, retryStart := 0 }

/-- A consumer configuration used to witness early cancellation:
RetryMax 2, RetryStart one millisecond. -/
def cancelConfig : Consumer :=
  { name := "", queue := "jobs", prefetchCount := 0, workers := 1,
    retryMax := 2, retryStart := 1000000 }

/-! ## Helper lemmas about the retry model -/

/-- Splitting the list of backoff delays of a window of m+1 waits into
the first wait and the later ones. -/
theorem range_map_backoff_cons (d : Duration) (m n : Nat) :
    (List.range (m + 1)).map (fun i => backOffDelay d (n + i)) =
      backOffDelay d n :: (List.range m).map fun i => backOffDelay d (n + 1 + i) := by
  rw [List.range_succ_eq_map, List.map_cons, List.map_map]
  simp only [Nat.add_zero]
  congr 1
  apply List.map_congr_left
  intro i _
  simp only [Function.comp_apply]
  congr 1
  omega

/-- A retry.Do run whose handler fails on every attempt and whose
context is never cancelled makes exactly fuel+1 attempts, completes the
backoff wait of each attempt but the last, and fails. -/
theorem retryDo_allFail (handler : Nat → Bool) (d : Duration)
    (hf : ∀ n, handler n = false) :
    ∀ fuel n, retryDo handler none d (fuel + 1) n =
      ⟨fuel + 1, (List.range fuel).map fun i => backOffDelay d (n + i), false⟩ := by
  intro fuel
  induction fuel with
  | zero => intro n; simp [retryDo, hf n]
  | succ m ih =>
    intro n
    show retryDo handler none d (m + 2) n = _
    rw [retryDo]
    simp only [hf n, ctxDone, Bool.false_eq_true, if_false]
    rw [ih (n + 1), range_map_backoff_cons]

/-- A retry.Do run with no cancellation succeeds exactly when some
attempt within the budget succeeds. -/
theorem retryDo_ok_iff (handler : Nat → Bool) (d : Duration) :
    ∀ fuel n, (retryDo handler none d fuel n).ok = true ↔
      ∃ i, i < fuel ∧ handler (n + i) = true := by
  intro fuel
  induction fuel using Nat.strong_induction_on with
  | _ fuel ih =>
    match fuel with
    | 0 => intro n; simp [retryDo]
    | 1 =>
      intro n
      constructor
      · intro h
        exact ⟨0, Nat.zero_lt_one, by simpa [retryDo] using h⟩
      · rintro ⟨i, hi, h⟩
        have hi0 : i = 0 := by omega
        subst hi0
        simpa [retryDo] using h
    | m + 2 =>
      intro n
      rw [retryDo]
      by_cases hn : handler n = true
      · simp only [hn, if_true]
        exact ⟨fun _ => ⟨0, by omega, by simpa using hn⟩, fun _ => trivial⟩
      · simp only [hn, Bool.false_eq_true, if_false, ctxDone]
        rw [ih (m + 1) (by omega) (n + 1)]
        constructor
        · rintro ⟨i, hi, h⟩
          refine ⟨i + 1, by omega, ?_⟩
          have harg : n + (i + 1) = n + 1 + i := by omega
          rw [harg]
          exact h
        · rintro ⟨i, hi, h⟩
          match i with
          | 0 =>
            exfalso
            apply hn
            simpa using h
          | j + 1 =>
            refine ⟨j, by omega, ?_⟩
            have harg : n + 1 + j = n + (j + 1) := by omega
            rw [harg]
            exact h

/-- A retry.Do run whose context is cancelled at backoff wait k, with
enough attempt budget left and a handler failing on every attempt up to
k, stops after attempt k: the failed attempt k is followed by the
cancellation check, which aborts the run with an error. -/
theorem retryDo_cancelled (handler : Nat → Bool) (d : Duration) (k : Nat) :
    ∀ fuel n, n ≤ k → k + 1 < n + fuel →
      (∀ i, n ≤ i → i ≤ k → handler i = false) →
      retryDo handler (some k) d fuel n =
        ⟨k + 1 - n, (List.range (k - n)).map fun i => backOffDelay d (n + i), false⟩ := by
  intro fuel
  induction fuel using Nat.strong_induction_on with
  | _ fuel ih =>
    match fuel with
    | 0 => intro n hnk hfuel hf; omega
    | 1 => intro n hnk hfuel hf; omega
    | m + 2 =>
      intro n hnk hfuel hf
      rw [retryDo]
      have hn : handler n = false := hf n le_rfl hnk
      simp only [hn, Bool.false_eq_true, if_false, ctxDone]
      by_cases hkn : k ≤ n
      · have heq : n = k := by omega
        subst heq
        simp
      · have hlt : n < k := by omega
        simp only [decide_eq_true_eq, if_neg (by omega : ¬ k ≤ n)]
        rw [ih (m + 1) (by omega) (n + 1) (by omega) (by omega)
          (fun i h1 h2 => hf i (by omega) h2)]
        have hsub : k - n = (k - (n + 1)) + 1 := by omega
        rw [hsub, range_map_backoff_cons]
        have hatt : k + 1 - (n + 1) + 1 = k + 1 - n := by omega
        rw [hatt]

/-! ## Helper lemmas about defaulting -/

/-- After StartConsumer's defaulting, RetryMax is positive. -/
theorem StartConsumerDefaults_retryMax_pos (c : Consumer) :
    0 < (StartConsumerDefaults c).retryMax := by
  show 0 < (if c.retryMax = 0 then 3 else c.retryMax)
  split <;> omega

/-- After StartConsumer's defaulting, RetryStart is positive. -/
theorem StartConsumerDefaults_retryStart_pos (c : Consumer) :
    0 < (StartConsumerDefaults c).retryStart := by
  show 0 < (if c.retryStart = 0 then second else c.retryStart)
  split
  · norm_num [second]
  · rename_i h
    exact Nat.pos_of_ne_zero h

/-- The backoff delays of consecutive completed waits strictly
increase, for any positive starting delay. -/
theorem chain_lt_backoff (d : Duration) (hd : 0 < d) (m n : Nat) :
    List.Chain' (· < ·) ((List.range m).map fun i => backOffDelay d (n + i)) := by
  rw [List.chain'_map]
  match m with
  | 0 => simp
  | mm + 1 =>
    rw [List.chain'_range_succ]
    intro j hj
    simp only [backOffDelay]
    have h2 : (2 : Nat) ^ (n + j) < 2 ^ (n + (j + 1)) := by
      apply Nat.pow_lt_pow_right (by norm_num)
      omega
    exact mul_lt_mul_of_pos_left h2 hd

/-- A processMessage run whose handler fails on every attempt, with no
cancellation: the handler runs RetryMax+1 times, every inter-attempt
backoff wait completes, and the single disposition is a reject without
requeue. -/
theorem processMessage_allFail (cfg : Consumer) (handler : Nat → Bool)
    (hf : ∀ n, handler n = false) :
    processMessage cfg handler none =
      (⟨cfg.retryMax + 1,
        (List.range cfg.retryMax).map fun i => backOffDelay cfg.retryStart (0 + i), false⟩,
       [Disposition.reject false]) := by
  simp only [processMessage]
  rw [retryDo_allFail handler cfg.retryStart hf cfg.retryMax 0]
  rfl

/-! ## Claim theorems -/

/-- C8: zero-valued configuration fields are replaced by their
documented defaults before use: ReconnectDelay 0 becomes one second at
client construction, and in StartConsumer Workers 0 becomes 1, RetryMax
0 becomes 3, RetryStart 0 becomes one second. -/
theorem C8_zero_value_defaults (cfg : Config) (c : Consumer)
    (h1 : cfg.reconnectDelay = 0) (h2 : c.workers = 0) (h3 : c.retryMax = 0)
    (h4 : c.retryStart = 0) :
    (NewClientDefaults cfg).reconnectDelay = second ∧
    (StartConsumerDefaults c).workers = 1 ∧
    (StartConsumerDefaults c).retryMax = 3 ∧
    (StartConsumerDefaults c).retryStart = second := by
  refine ⟨?_, ?_, ?_, ?_⟩ <;>
    simp [NewClientDefaults, StartConsumerDefaults, h1, h2, h3, h4]

/-- Witness for C8 at an all-zero configuration. -/
theorem C8_zero_value_defaults_witness :
    (NewClientDefaults zeroConfig).reconnectDelay = second ∧
    (StartConsumerDefaults zeroConsumer).workers = 1 ∧
    (StartConsumerDefaults zeroConsumer).retryMax = 3 ∧
    (StartConsumerDefaults zeroConsumer).retryStart = second :=
  C8_zero_value_defaults zeroConfig zeroConsumer rfl rfl rfl rfl

/-- C5: for every payload, Publish while isReady is false returns
ErrNotConnected immediately, serialising nothing and performing no
network action (the recorded event list is empty). -/
theorem C5_publish_requires_ready (st : ClientState) (marshalOk publishOk : Bool)
    (h : st.isReady = false) :
    Publish st marshalOk publishOk = (PubResult.notConnected, []) := by
  simp [Publish, h]

/-- Witness for C5 at a concrete not-ready state. -/
theorem C5_publish_requires_ready_witness :
    Publish notReadyState true true = (PubResult.notConnected, []) :=
  C5_publish_requires_ready notReadyState true true rfl

/-- C10: the readiness check precedes payload serialisation, so a
payload that cannot be JSON-encoded yields ErrNotConnected — not the
serialisation error — whenever isReady is false, while the same payload
yields the serialisation error when the client is ready. -/
theorem C10_ready_check_before_marshal (st : ClientState) (publishOk : Bool)
    (h : st.isReady = false) :
    (Publish st false publishOk).1 = PubResult.notConnected ∧
    (Publish st false publishOk).1 ≠ PubResult.marshalError ∧
    (∀ st2 : ClientState, st2.isReady = true →
      (Publish st2 false publishOk).1 = PubResult.marshalError) := by
  refine ⟨?_, ?_, ?_⟩
  · simp [Publish, h]
  · simp [Publish, h]
  · intro st2 h2
    simp [Publish, h2]

/-- Witness for C10 at a concrete not-ready state. -/
theorem C10_ready_check_before_marshal_witness :
    (Publish notReadyState false true).1 = PubResult.notConnected ∧
    (Publish notReadyState false true).1 ≠ PubResult.marshalError ∧
    (∀ st2 : ClientState, st2.isReady = true →
      (Publish st2 false true).1 = PubResult.marshalError) :=
  C10_ready_check_before_marshal notReadyState true rfl

/-- C2 is refuted by the code: errors.go declares ErrShutdown but no
operation ever returns it. Every Publish run yields one of the other
results, and Close sets the closed flag without clearing isReady, so a
Publish immediately after Close passes the readiness check and performs
the network publish instead of failing with the shutdown error. -/
theorem C2_shutdown_error_never_returned :
    (∀ (st : ClientState) (marshalOk publishOk : Bool),
      isShutdownResult (Publish st marshalOk publishOk).1 = false) ∧
    ((Close readyState).1.closed = true ∧
      (Close readyState).1.isReady = true ∧
      Publish (Close readyState).1 true true =
        (PubResult.published, [PubEvent.marshal, PubEvent.networkPublish])) := by
  constructor
  · intro st marshalOk publishOk
    cases h : st.isReady <;> cases marshalOk <;> cases publishOk <;>
      simp [Publish, h, isShutdownResult]
  · exact ⟨rfl, rfl, rfl⟩

/-- C6: connect leaves ConnectionState untouched on any failure — in
the partial-failure case (dial succeeds, channel fails) the freshly
dialed connection is closed before the error is returned — and on
success replaces the connection, the channel and both close-notification
sources together (one generation, one lock-protected swap event) while
setting isReady true in the same update. -/
theorem C6_connect_atomic (st : ClientState) :
    ((connect st true false).1 = st ∧
      (connect st true false).2.1 = false ∧
      (connect st true false).2.2 =
        [ConnEvent.dialAttempt true, ConnEvent.openChannel false, ConnEvent.closeNewConn]) ∧
    ((connect st false false).1 = st) ∧
    ((connect st true true).1 =
      { isReady := true, closed := st.closed, connGen := st.connGen + 1,
        chGen := st.connGen + 1, notifyConnGen := st.connGen + 1,
        notifyChanGen := st.connGen + 1 } ∧
      (connect st true true).2.2 =
        [ConnEvent.dialAttempt true, ConnEvent.openChannel true,
         ConnEvent.stateSwap (st.connGen + 1)]) :=
  ⟨⟨rfl, rfl, rfl⟩, rfl, rfl, rfl⟩

/-- C1 as stated is refuted: with RetryMax = 0 the consumer defaults
RetryMax to 3 on entry, so an always-failing handler is invoked four
times for the spec's "jobs" scenario delivery, not once, before the
single reject. -/
theorem C1_single_attempt_counterexample :
    (StartConsumerProcess jobsConfig alwaysFailHandler none).1.attempts = 4 ∧
    (StartConsumerProcess jobsConfig alwaysFailHandler none).1.attempts ≠ 1 ∧
    (StartConsumerProcess jobsConfig alwaysFailHandler none).2 =
      [Disposition.reject false] := by
  refine ⟨by decide, by decide, by decide⟩

/-- C1 amended: for a consumer started with RetryMax = 0 and a handler
failing on every invocation, every delivery that reaches a worker is
rejected exactly once after four handler attempts (RetryMax 0 is
defaulted to 3, giving 3+1 attempts), and no acknowledge call is ever
issued. -/
theorem C1_retryMax_zero_defaulted (config : Consumer) (handler : Nat → Bool)
    (h0 : config.retryMax = 0) (hf : ∀ n, handler n = false) :
    (StartConsumerProcess config handler none).1.attempts = 4 ∧
    (StartConsumerProcess config handler none).2 = [Disposition.reject false] := by
  have hmax : (StartConsumerDefaults config).retryMax = 3 := by
    show (if config.retryMax = 0 then 3 else config.retryMax) = 3
    simp [h0]
  simp only [StartConsumerProcess]
  rw [processMessage_allFail _ handler hf]
  exact ⟨by simp [hmax], rfl⟩

/-- Witness for the amended C1 at the spec's "jobs" scenario. -/
theorem C1_retryMax_zero_defaulted_witness :
    (StartConsumerProcess jobsConfig alwaysFailHandler none).1.attempts = 4 ∧
    (StartConsumerProcess jobsConfig alwaysFailHandler none).2 =
      [Disposition.reject false] :=
  C1_retryMax_zero_defaulted jobsConfig alwaysFailHandler rfl (fun _ => rfl)

/-- C3: for every delivery whose handler fails on all attempts, the
handler runs exactly RetryMax+1 times (after defaulting), the backoff
delays strictly increase between consecutive attempts starting from
RetryStart, and the single disposition is one reject without requeue. -/
theorem C3_exhausted_handler (config : Consumer) (handler : Nat → Bool)
    (hf : ∀ n, handler n = false) :
    (processMessage (StartConsumerDefaults config) handler none).1.attempts =
      (StartConsumerDefaults config).retryMax + 1 ∧
    (processMessage (StartConsumerDefaults config) handler none).2 =
      [Disposition.reject false] ∧
    (processMessage (StartConsumerDefaults config) handler none).1.delays.head? =
      some (StartConsumerDefaults config).retryStart ∧
    List.Chain' (· < ·)
      (processMessage (StartConsumerDefaults config) handler none).1.delays := by
  rw [processMessage_allFail (StartConsumerDefaults config) handler hf]
  refine ⟨rfl, rfl, ?_, ?_⟩
  · obtain ⟨mm, hmm⟩ : ∃ mm, (StartConsumerDefaults config).retryMax = mm + 1 := by
      have hpos := StartConsumerDefaults_retryMax_pos config
      exact ⟨(StartConsumerDefaults config).retryMax - 1, by omega⟩
    rw [hmm, List.range_succ_eq_map]
    simp [backOffDelay]
  · exact chain_lt_backoff (StartConsumerDefaults config).retryStart
      (StartConsumerDefaults_retryStart_pos config) (StartConsumerDefaults config).retryMax 0

/-- Witness for C3 at the "jobs" configuration with an always-failing
handler. -/
theorem C3_exhausted_handler_witness :
    (processMessage (StartConsumerDefaults jobsConfig) alwaysFailHandler none).1.attempts =
      (StartConsumerDefaults jobsConfig).retryMax + 1 ∧
    (processMessage (StartConsumerDefaults jobsConfig) alwaysFailHandler none).2 =
      [Disposition.reject false] ∧
    (processMessage (StartConsumerDefaults jobsConfig) alwaysFailHandler none).1.delays.head? =
      some (StartConsumerDefaults jobsConfig).retryStart ∧
    List.Chain' (· < ·)
      (processMessage (StartConsumerDefaults jobsConfig) alwaysFailHandler none).1.delays :=
  C3_exhausted_handler jobsConfig alwaysFailHandler (fun _ => rfl)

/-- C4: every delivery a worker processes receives exactly one terminal
disposition — an acknowledge exactly when the retry run of its handler
succeeds (with no cancellation: exactly when some attempt within the
RetryMax+1 budget succeeds), a reject without requeue otherwise — and
every delivery pulled by the worker pool is handed to processMessage,
so no delivery is disposed twice or left undisposed. -/
theorem C4_exactly_one_disposition (config : Consumer) (handler : Nat → Bool)
    (cancelAt : Option Nat) (deliveries : List (Nat → Bool)) :
    (processMessage config handler cancelAt).2.length = 1 ∧
    ((processMessage config handler cancelAt).2 = [Disposition.ack] ∨
      (processMessage config handler cancelAt).2 = [Disposition.reject false]) ∧
    ((processMessage config handler cancelAt).2 = [Disposition.ack] ↔
      (retryDo handler cancelAt config.retryStart (config.retryMax + 1) 0).ok = true) ∧
    (cancelAt = none →
      ((processMessage config handler cancelAt).2 = [Disposition.ack] ↔
        ∃ i, i < config.retryMax + 1 ∧ handler i = true)) ∧
    (∀ ds ∈ consumeLoop config deliveries cancelAt, ds.length = 1) := by
  have key : ∀ (h2 : Nat → Bool) (c2 : Option Nat),
      (processMessage config h2 c2).2.length = 1 ∧
      ((processMessage config h2 c2).2 = [Disposition.ack] ∨
        (processMessage config h2 c2).2 = [Disposition.reject false]) ∧
      ((processMessage config h2 c2).2 = [Disposition.ack] ↔
        (retryDo h2 c2 config.retryStart (config.retryMax + 1) 0).ok = true) := by
    intro h2 c2
    simp only [processMessage]
    by_cases hok : (retryDo h2 c2 config.retryStart (config.retryMax + 1) 0).ok = true
    · simp [hok]
    · simp [hok]
  refine ⟨(key handler cancelAt).1, (key handler cancelAt).2.1, (key handler cancelAt).2.2,
    ?_, ?_⟩
  · rintro rfl
    have hiff := retryDo_ok_iff handler config.retryStart (config.retryMax + 1) 0
    simp only [Nat.zero_add] at hiff
    exact (key handler none).2.2.trans hiff
  · intro ds hds
    simp only [consumeLoop, List.mem_map] at hds
    obtain ⟨h2, _, rfl⟩ := hds
    exact (key h2 cancelAt).1

/-- C9: a context cancelled at backoff wait k (strictly inside a
failing retry sequence, k < RetryMax) stops the retry loop early with an
error — only k+1 of the RetryMax+1 budgeted attempts run — and the
delivery is rejected without requeue, never left undisposed or
requeued. -/
theorem C9_cancelled_mid_retry (config : Consumer) (handler : Nat → Bool) (k : Nat)
    (hk : k < config.retryMax)
    (hf : ∀ i, i ≤ k → handler i = false) :
    (processMessage config handler (some k)).1.attempts = k + 1 ∧
    (processMessage config handler (some k)).1.attempts < config.retryMax + 1 ∧
    (processMessage config handler (some k)).1.ok = false ∧
    (processMessage config handler (some k)).2 = [Disposition.reject false] := by
  have hr := retryDo_cancelled handler config.retryStart k (config.retryMax + 1) 0
    (by omega) (by omega) (fun i _ h2 => hf i h2)
  have hproc : processMessage config handler (some k) =
      (⟨k + 1 - 0, (List.range (k - 0)).map fun i => backOffDelay config.retryStart (0 + i),
        false⟩,
       [Disposition.reject false]) := by
    simp only [processMessage]
    rw [hr]
    rfl
  rw [hproc]
  refine ⟨by simp, ?_, rfl, rfl⟩
  show k + 1 - 0 < config.retryMax + 1
  omega

/-- Witness for C9: cancellation at the first backoff wait under a
RetryMax 2 configuration. -/
theorem C9_cancelled_mid_retry_witness :
    (processMessage cancelConfig alwaysFailHandler (some 0)).1.attempts = 0 + 1 ∧
    (processMessage cancelConfig alwaysFailHandler (some 0)).1.attempts <
      cancelConfig.retryMax + 1 ∧
    (processMessage cancelConfig alwaysFailHandler (some 0)).1.ok = false ∧
    (processMessage cancelConfig alwaysFailHandler (some 0)).2 =
      [Disposition.reject false] :=
  C9_cancelled_mid_retry cancelConfig alwaysFailHandler 0 (by decide) (fun i _ => rfl)

/-- In every trace of the reconnection actor, a read of the closed flag
returning true is the last event: the actor returns immediately after
observing closed. -/
theorem handleReconnection_stop_last (closedAt connOk : Nat → Bool) :
    ∀ (fuel : Nat) (mode : ActorMode) (t i : Nat),
      (handleReconnection closedAt connOk fuel mode t)[i]? =
        some (ActorEvent.checkClosed true) →
      i + 1 = (handleReconnection closedAt connOk fuel mode t).length := by
  intro fuel
  induction fuel with
  | zero =>
    intro mode t i h
    simp [handleReconnection] at h
  | succ m ih =>
    intro mode t i h
    cases mode with
    | outer =>
      cases hc : closedAt t with
      | true =>
        simp only [handleReconnection, hc, if_true] at h ⊢
        rcases i with _ | j
        · rfl
        · simp at h
      | false =>
        simp only [handleReconnection, hc, Bool.false_eq_true, if_false] at h ⊢
        rcases i with _ | _ | _ | j
        · simp at h
        · simp at h
        · simp at h
        · simp only [List.getElem?_cons_succ] at h
          have hlen := ih ActorMode.inner (t + 1) j h
          simp only [List.length_cons]
          omega
    | inner =>
      cases hc : closedAt t with
      | true =>
        simp only [handleReconnection, hc, if_true] at h ⊢
        rcases i with _ | j
        · rfl
        · simp at h
      | false =>
        simp only [handleReconnection, hc, Bool.false_eq_true, if_false] at h ⊢
        cases hco : connOk t with
        | true =>
          simp only [hco, if_true] at h ⊢
          rcases i with _ | _ | j
          · simp at h
          · simp at h
          · simp only [List.getElem?_cons_succ] at h
            have hlen := ih ActorMode.outer (t + 1) j h
            simp only [List.length_cons]
            omega
        | false =>
          simp only [hco, Bool.false_eq_true, if_false] at h ⊢
          rcases i with _ | _ | _ | j
          · simp at h
          · simp at h
          · simp at h
          · simp only [List.getElem?_cons_succ] at h
            have hlen := ih ActorMode.inner (t + 1) j h
            simp only [List.length_cons]
            omega

/-- C7: once closed becomes true no state-mutating operation of the
client resets it, and the reconnection actor — which reads closed at
every loop boundary — returns the moment a read yields true: that read
is the last event of its trace, so no connect attempt is ever made
after closed is observed true. -/
theorem C7_no_reconnect_after_close :
    (∀ s1 s2 : ClientState, ClientStep s1 s2 → s1.closed = true → s2.closed = true) ∧
    (∀ (closedAt connOk : Nat → Bool) (fuel : Nat) (mode : ActorMode) (t i j : Nat)
      (ok : Bool),
      i < j →
      (handleReconnection closedAt connOk fuel mode t)[i]? =
        some (ActorEvent.checkClosed true) →
      (handleReconnection closedAt connOk fuel mode t)[j]? ≠
        some (ActorEvent.connectAttempt ok)) := by
  constructor
  · intro s1 s2 hstep h1
    cases hstep with
    | close => rfl
    | conn dialOk chanOk => cases dialOk <;> cases chanOk <;> exact h1
    | ready b => exact h1
  · intro closedAt connOk fuel mode t i j ok hij hi hj
    have hlast := handleReconnection_stop_last closedAt connOk fuel mode t i hi
    have hjlen : j < (handleReconnection closedAt connOk fuel mode t).length := by
      by_contra hout
      rw [List.getElem?_eq_none (by omega)] at hj
      simp at hj
    omega

end GoCommonRabbit
